import Mathlib

/-!
Shallow embedding of the wagtail-airtable synchronization engine.

The definitions below are translated from the repository's Python sources:

* `wagtail_airtable/importer.py` — the `AirtableModelImporter` class
  (field mapping, instance lookup, update/create paths, `process_record`);
* `wagtail_airtable/management/commands/import_airtable.py` — the legacy
  `Importer` class (per-record three-step reconciliation, per-table record
  caching, used-record marking, counters);
* `wagtail_airtable/mixins.py` — the `AirtableMixin` push state machine
  (`create_record` / `update_record` / `match_record`, `parse_request_error`,
  and the error-containment skeleton of `save()`).

Modelling conventions: Python dicts whose iteration order matters are
association lists `List (String × String)`; Python attribute assignment is
replace-in-place on the association list (`setAttr`); fallible Python code
returns `Option` or `Except PyErr`; the remote Airtable client is a record of
response functions; machine-level concerns (HTTP transport, ORM internals)
enter only through those parameters.
-/

set_option maxRecDepth 100000

namespace WagtailAirtable

/-! ### List-of-characters string utilities (Python `in`, `split`, `rstrip`) -/

/-- True when the pattern is an initial segment of the second list
(used to look for an occurrence of a separator starting at the head). -/
def isPref : List Char → List Char → Bool
  | [], _ => true
  | _ :: _, [] => false
  | a :: as, b :: bs => a == b && isPref as bs

/-- Python's substring test `pat in s` for a non-empty pattern:
true when `pat` occurs contiguously in `s`. -/
def hasSub (pat : List Char) : List Char → Bool
  | [] => pat.isEmpty
  | c :: rest => isPref pat (c :: rest) || hasSub pat rest

/-- Python split `s.split(sep)` on character lists for a non-empty separator,
written with explicit fuel (one unit per consumed character) so that it is
structurally recursive and reduces by `rfl`.  Splits at each leftmost
non-overlapping occurrence of `sep`. -/
def splitGo (fuel : Nat) (sep : List Char) (s : List Char) : List (List Char) :=
  match fuel, s with
  | _, [] => [[]]
  | 0, s => [s]
  | fuel + 1, c :: rest =>
    if !sep.isEmpty && isPref sep (c :: rest) then
      [] :: splitGo fuel sep ((c :: rest).drop sep.length)
    else
      let ps := splitGo fuel sep rest
      (c :: ps.headD []) :: ps.tail

/-- Python split `s.split(sep)` (all occurrences; adequate fuel supplied). -/
def splitList (sep s : List Char) : List (List Char) :=
  splitGo s.length sep s

/-- Python substring test `pat in s` on `String`. -/
def strContains (s pat : String) : Bool :=
  hasSub pat.data s.data

/-- First piece of a Python split: `s.split(sep)[0]` (also the value of
`s.split(sep, 1)[0]`). -/
def firstPiece (sep : List Char) (s : List Char) : List Char :=
  (splitList sep s).headD []

/-- Digit-string to number, `none` when empty or a non-digit appears
(the failure case of Python `int(...)`, a `ValueError`). -/
def digitsToNat : List Char → Option Nat
  | [] => none
  | cs => cs.foldl (fun acc c =>
      match acc with
      | none => none
      | some n => if c.isDigit then some (n * 10 + (c.toNat - '0'.toNat)) else none)
      (some 0)

/-- Python integer parse `int(s)` for a plain optionally-signed decimal literal. -/
def pyToInt (s : List Char) : Option Int :=
  match s with
  | '-' :: rest => (digitsToNat rest).map (fun n => -(n : Int))
  | '+' :: rest => (digitsToNat rest).map (fun n => (n : Int))
  | cs => (digitsToNat cs).map (fun n => (n : Int))

/-- Python strip `s.rstrip("]")` on character lists. -/
def rstripBracket (s : List Char) : List Char :=
  (s.reverse.dropWhile (fun c => c == ']')).reverse

/-- If the separator does not occur in `s`, `splitGo` returns `[s]`
(provided the fuel covers the string). -/
theorem splitGo_of_not_hasSub (sep : List Char) :
    ∀ (fuel : Nat) (s : List Char), s.length ≤ fuel → hasSub sep s = false →
      splitGo fuel sep s = [s] := by
  intro fuel
  induction fuel with
  | zero =>
    intro s hlen _
    match s with
    | [] => rfl
    | _ :: _ => simp at hlen
  | succ n ih =>
    intro s hlen hsub
    match s with
    | [] => rfl
    | c :: rest =>
      rw [hasSub] at hsub
      rw [Bool.or_eq_false_iff] at hsub
      rw [splitGo]
      rw [hsub.1]
      simp only [Bool.and_false, Bool.false_eq_true, if_neg, Bool.and_eq_true]
      have : splitGo n sep rest = [rest] := by
        apply ih
        · simpa [Nat.succ_le_succ_iff] using hlen
        · exact hsub.2
      rw [this]
      rfl

/-- If the separator does not occur in `s`, Python split yields one piece. -/
theorem splitList_of_not_contains (sep s : List Char) (h : hasSub sep s = false) :
    splitList sep s = [s] :=
  splitGo_of_not_hasSub sep s.length s (Nat.le_refl _) h

/-! ### Python object attributes as an association list

`setAttr` models `setattr(instance, k, v)` on an object whose attributes are
the entries of the list: when the key is already present its value is replaced
in place (every occurrence, preserving order); a missing key is appended.
`applyFields` is the assignment loop `for field_name, value in data.items()`.
-/

/-- Replace the entry for `k` by `(k, v)`; leave other entries alone. -/
def updEntry (k v : String) (p : String × String) : String × String :=
  if p.1 == k then (k, v) else p

/-- Python attribute assignment: replace in place when present, append when absent. -/
def setAttr (fs : List (String × String)) (k v : String) : List (String × String) :=
  if fs.any (fun p => p.1 == k) then fs.map (updEntry k v) else fs ++ [(k, v)]

/-- The assignment loop: apply each `(field, value)` of `data` in order. -/
def applyFields (fs data : List (String × String)) : List (String × String) :=
  data.foldl (fun acc p => setAttr acc p.1 p.2) fs

/-- After `setAttr fs k v`, every entry with key `k` is exactly `(k, v)`. -/
theorem mem_setAttr_key {fs : List (String × String)} {k v : String} :
    ∀ p ∈ setAttr fs k v, p.1 = k → p = (k, v) := by
  intro p hp hk
  rw [setAttr] at hp
  by_cases h : fs.any (fun p => p.1 == k) = true
  · rw [if_pos h] at hp
    obtain ⟨q, _, hq⟩ := List.mem_map.mp hp
    rw [updEntry] at hq
    by_cases hq1 : q.1 == k
    · rw [if_pos hq1] at hq; exact hq.symm
    · rw [if_neg hq1] at hq
      subst hq
      exact absurd (beq_iff_eq.mpr hk) (by simpa using hq1)
  · rw [if_neg h] at hp
    rcases List.mem_append.mp hp with hin | hone
    · exfalso
      apply h
      exact List.any_eq_true.mpr ⟨p, hin, beq_iff_eq.mpr hk⟩
    · simpa using hone

/-- After `setAttr fs k v`, key `k` is present. -/
theorem setAttr_key_present (fs : List (String × String)) (k v : String) :
    (setAttr fs k v).any (fun p => p.1 == k) = true := by
  rw [setAttr]
  by_cases h : fs.any (fun p => p.1 == k) = true
  · rw [if_pos h]
    obtain ⟨q, hq, hqk⟩ := List.any_eq_true.mp h
    refine List.any_eq_true.mpr ⟨updEntry k v q, List.mem_map_of_mem _ hq, ?_⟩
    rw [updEntry, if_pos hqk]
    exact beq_iff_eq.mpr rfl
  · rw [if_neg h]
    exact List.any_eq_true.mpr ⟨(k, v), by simp, by simp⟩

/-- Assigning a *different* key preserves "every `k`-entry is `(k, v)`". -/
theorem setAttr_preserves_entries {fs : List (String × String)} {k v k' v' : String}
    (hkk : k' ≠ k) (h : ∀ p ∈ fs, p.1 = k → p = (k, v)) :
    ∀ p ∈ setAttr fs k' v', p.1 = k → p = (k, v) := by
  intro p hp hk
  rw [setAttr] at hp
  by_cases hany : fs.any (fun p => p.1 == k') = true
  · rw [if_pos hany] at hp
    obtain ⟨q, hqmem, hq⟩ := List.mem_map.mp hp
    rw [updEntry] at hq
    by_cases hq1 : q.1 == k'
    · rw [if_pos hq1] at hq
      exfalso
      apply hkk
      rw [← hq] at hk
      exact hk
    · rw [if_neg hq1] at hq
      rw [← hq] at hk ⊢
      exact h q hqmem hk
  · rw [if_neg hany] at hp
    rcases List.mem_append.mp hp with hin | hone
    · exact h p hin hk
    · have : p = (k', v') := by simpa using hone
      subst this
      exact absurd hk hkk

/-- Assigning a *different* key preserves presence of key `k`. -/
theorem setAttr_preserves_present {fs : List (String × String)} {k k' v' : String}
    (hkk : k' ≠ k) (h : fs.any (fun p => p.1 == k) = true) :
    (setAttr fs k' v').any (fun p => p.1 == k) = true := by
  rw [setAttr]
  by_cases hany : fs.any (fun p => p.1 == k') = true
  · rw [if_pos hany]
    obtain ⟨q, hq, hqk⟩ := List.any_eq_true.mp h
    refine List.any_eq_true.mpr ⟨updEntry k' v' q, List.mem_map_of_mem _ hq, ?_⟩
    rw [updEntry]
    by_cases hq1 : q.1 == k'
    · exact absurd ((beq_iff_eq.mp hq1).symm.trans (beq_iff_eq.mp hqk)) hkk
    · rw [if_neg hq1]; exact hqk
  · rw [if_neg hany]
    obtain ⟨q, hq, hqk⟩ := List.any_eq_true.mp h
    exact List.any_eq_true.mpr ⟨q, List.mem_append_left _ hq, hqk⟩

/-- The assignment loop over keys all different from `k` preserves both
"every `k`-entry is `(k, v)`" and presence of `k`. -/
theorem applyFields_preserves {k v : String} :
    ∀ (d fs : List (String × String)), (∀ q ∈ d, q.1 ≠ k) →
      (∀ p ∈ fs, p.1 = k → p = (k, v)) → fs.any (fun p => p.1 == k) = true →
      (∀ p ∈ applyFields fs d, p.1 = k → p = (k, v)) ∧
        (applyFields fs d).any (fun p => p.1 == k) = true := by
  intro d
  induction d with
  | nil => intro fs _ h1 h2; exact ⟨h1, h2⟩
  | cons q d' ih =>
    intro fs hd h1 h2
    have hq : q.1 ≠ k := hd q (List.mem_cons_self _ _)
    have hstep : applyFields fs (q :: d') = applyFields (setAttr fs q.1 q.2) d' := rfl
    rw [hstep]
    exact ih (setAttr fs q.1 q.2) (fun r hr => hd r (List.mem_cons_of_mem _ hr))
      (setAttr_preserves_entries hq h1) (setAttr_preserves_present hq h2)

/-- When every `k`-entry is already `(k, v)` and `k` is present,
`setAttr fs k v` changes nothing. -/
theorem setAttr_fixpoint {fs : List (String × String)} {k v : String}
    (h1 : ∀ p ∈ fs, p.1 = k → p = (k, v)) (h2 : fs.any (fun p => p.1 == k) = true) :
    setAttr fs k v = fs := by
  rw [setAttr, if_pos h2]
  have : ∀ p ∈ fs, updEntry k v p = p := by
    intro p hp
    rw [updEntry]
    by_cases hk : p.1 == k
    · rw [if_pos hk]
      exact (h1 p hp (beq_iff_eq.mp hk)).symm
    · rw [if_neg hk]
  rw [List.map_congr_left this]
  simp

/-- The assignment loop is idempotent when the assigned keys are distinct
(they are: `data` comes from a Python dict). -/
theorem applyFields_idem :
    ∀ (d fs : List (String × String)), (d.map Prod.fst).Nodup →
      applyFields (applyFields fs d) d = applyFields fs d := by
  intro d
  induction d with
  | nil => intro fs _; rfl
  | cons q d' ih =>
    intro fs hd
    rw [List.map_cons, List.nodup_cons] at hd
    have hstep : ∀ gs, applyFields gs (q :: d') = applyFields (setAttr gs q.1 q.2) d' :=
      fun _ => rfl
    rw [hstep, hstep]
    have hprop := applyFields_preserves (k := q.1) (v := q.2) d' (setAttr fs q.1 q.2)
      (fun r hr h => hd.1 (h ▸ List.mem_map_of_mem Prod.fst hr))
      (mem_setAttr_key) (setAttr_key_present fs q.1 q.2)
    rw [setAttr_fixpoint hprop.1 hprop.2]
    exact ih (setAttr fs q.1 q.2) hd.2

/-! ### FieldMapper — `convert_mapped_fields`

From `importer.py` (module level) and, identically, from
`import_airtable.py` (`Importer.convert_mapped_fields`):

    mapped_fields_dict = {
        mapped_fields_dict[key]: value
        for (key, value) in record_fields_dict.items()
        if key in mapped_fields_dict
    }
-/

/-- Translate a remote record's fields (Airtable column name → value) to
local field names using the mapping spec (Airtable column → Django field).
Columns absent from the mapping are dropped. -/
def convert_mapped_fields (record_fields_dict mapped_fields_dict : List (String × String)) :
    List (String × String) :=
  record_fields_dict.filterMap (fun p =>
    match mapped_fields_dict.lookup p.1 with
    | some fieldName => some (fieldName, p.2)
    | none => none)

/-! ### A remote Airtable record -/

/-- A transient remote record: `{"id": ..., "fields": {...}}`. -/
structure ARecord where
  id : String
  fields : List (String × String)
deriving DecidableEq, Repr

/-! ### `AirtableModelImporter` (importer.py) -/

namespace AirtableModelImporter

/-- A local Django/Wagtail model instance as the importer sees it.
`pk` is the local primary key (instance identity in the database),
`fields` the data attributes touched by the import mapping, `locked` the
Wagtail page lock flag, `push_to_airtable` the outgoing-push switch. -/
structure Instance where
  pk : Nat
  airtable_record_id : String
  fields : List (String × String)
  locked : Bool
  push_to_airtable : Bool
deriving DecidableEq, Repr

/-- Model of `instance.to_json()`: the serialized state compared by `update_object`
(data fields plus the persisted `airtable_record_id` and the page's `locked`
flag; the `push_to_airtable` class attribute is not a model field and is not
serialized). -/
def toJson (i : Instance) : List (String × String) × String × Bool :=
  (i.fields, i.airtable_record_id, i.locked)

/-- Model of `AirtableModelImporter.update_object` (importer.py lines 144-174).

Returns `(was_saved, instance-after)`.  A locked page is never touched.
For a page model the serialized state is captured before the assignment
loop and the save is skipped when it did not change; for a non-page model
no such comparison exists and the save is unconditional.  Many-to-many
fields use `.set(value)` (override), which this flat model treats as plain
assignment like the scalar branch. -/
def update_object (model_is_page : Bool) (inst : Instance) (record_id : String)
    (data : List (String × String)) : Bool × Instance :=
  if model_is_page && inst.locked then
    (false, inst)
  else
    let before := toJson inst
    let inst1 : Instance := { inst with fields := applyFields inst.fields data }
    if model_is_page && (before == toJson inst1) then
      (false, inst1)
    else
      (true, { inst1 with push_to_airtable := false, airtable_record_id := record_id })

/-- Model of `AirtableModelImporter.get_existing_instance` (importer.py lines 210-224):
first filter by `airtable_record_id`, and only when that finds nothing filter
by the configured unique-identifier field. -/
def get_existing_instance (db : List Instance) (uniq_field : String) (record_id : String)
    (unique_identifier : Option String) : Option Instance :=
  match db.find? (fun i => i.airtable_record_id == record_id) with
  | some i => some i
  | none => db.find? (fun i => i.fields.lookup uniq_field == unique_identifier)

/-- The kind of `errors` payload carried by an import result: a serializer
validation-error mapping, or a caught exception (`{"exception": e}`).
The payload contents are only logged/displayed and are abstracted here. -/
inductive ResultErrors
  | validation
  | exception
deriving DecidableEq, Repr

/-- Model of `AirtableImportResult` (importer.py lines 14-18). -/
structure AirtableImportResult where
  record_id : String
  fields : List (String × String)
  new : Bool
  errors : Option ResultErrors
deriving DecidableEq, Repr

/-- Static configuration of one `AirtableModelImporter`: page-ness, the
unique-identifier column/field pair, the import mapping, and the
serializer's behaviour (validity predicate and validated data) as supplied
by the per-model serializer class.  `updateThrows`/`createThrows` model
whether the ORM raises inside the update/create path (the broad
`except Exception` branches of `process_record`). -/
structure Cfg where
  model_is_page : Bool
  uniqCol : String
  uniqField : String
  mapping : List (String × String)
  serValid : List (String × String) → Bool
  serData : List (String × String) → List (String × String)
  updateThrows : Bool
  createThrows : Bool

/-- Model of `get_data_for_new_model` + `create_object` (importer.py lines 68-85,
176-208), restricted to the non-page branch: strip `pk`/`id` keys, store the
remote id, suppress push.  (Page-tree placement and publishing of new pages
are outside this model's scope.) -/
def create_object (freshPk : Nat) (data : List (String × String)) (record_id : String) :
    Instance :=
  { pk := freshPk
    airtable_record_id := record_id
    fields := data.filter (fun p => !(p.1 == "pk") && !(p.1 == "id"))
    locked := false
    push_to_airtable := false }

/-- Model of `AirtableModelImporter.process_record` (importer.py lines 226-268).

Returns the `AirtableImportResult` and the database after the record is
processed.  `freshPk` is the primary key the local store would assign to a
newly created row. -/
def process_record (cfg : Cfg) (db : List Instance) (freshPk : Nat) (record : ARecord) :
    AirtableImportResult × List Instance :=
  let mapped := convert_mapped_fields record.fields cfg.mapping
  let unique_identifier := record.fields.lookup cfg.uniqCol
  let obj := get_existing_instance db cfg.uniqField record.id unique_identifier
  if !(cfg.serValid mapped) then
    (⟨record.id, record.fields, obj.isSome, some .validation⟩, db)
  else
    match obj with
    | some o =>
      if cfg.updateThrows then
        (⟨record.id, record.fields, false, some .exception⟩, db)
      else
        let r := update_object cfg.model_is_page o record.id (cfg.serData mapped)
        let db1 := if r.1 then db.map (fun i => if i.pk == o.pk then r.2 else i) else db
        (⟨record.id, record.fields, false, none⟩, db1)
    | none =>
      if cfg.createThrows then
        (⟨record.id, record.fields, true, some .exception⟩, db)
      else
        (⟨record.id, record.fields, true, none⟩,
          db ++ [create_object freshPk (cfg.serData mapped) record.id])

end AirtableModelImporter

/-! ### The management-command `Importer` (import_airtable.py) -/

namespace Importer

/-- A local model record as the command importer sees it. -/
structure LocalRecord where
  pk : Nat
  airtable_record_id : String
  fields : List (String × String)
  locked : Bool
deriving DecidableEq, Repr

/-- Per-model configuration for one pass of `Importer.run`: the Airtable
table name, page-ness, the unique-identifier column/field names, the import
mapping, the serializer behaviour, whether `instance.save()` succeeds
(`saveOk` is false when the ORM raises `ValidationError` for that state),
whether creating a brand-new record succeeds (`createOk` is false when the
constructor/save raises one of the caught exceptions), and the
`PARENT_PAGE_ID` setting for page models. -/
structure Cfg where
  table : String
  is_wagtail_model : Bool
  uniqCol : String
  uniqField : String
  mapping : List (String × String)
  serValid : List (String × String) → Bool
  serData : List (String × String) → List (String × String)
  saveOk : LocalRecord → Bool
  createOk : Bool
  parentSetting : Option Nat
  parentExists : Bool

/-- The `Importer` object's mutable state (`__init__`, lines 28-35), plus
`fetches`: the list of tables on which `airtable.get_all()` was actually
invoked, in order (for counting remote full-table fetches). -/
structure St where
  records_used : List String
  cached_records : List (String × List ARecord)
  created : Nat
  updated : Nat
  skipped : Nat
  db : List LocalRecord
  fetches : List String
deriving Repr

/-- Persist an updated instance: replace the row with the same primary key. -/
def saveRec (db : List LocalRecord) (inst : LocalRecord) : List LocalRecord :=
  db.map (fun r => if r.pk == inst.pk then inst else r)

/-- The primary key the local store assigns to a newly inserted row. -/
def freshPk (db : List LocalRecord) : Nat :=
  (db.map (fun r => r.pk)).foldl Nat.max 0 + 1

/-- The in-memory instance state after the serializer-valid assignment loop
of `Importer.update_object`/`update_object_by_uniq_col_name`: mapped
attributes assigned, `airtable_record_id` set to the remote row's id. -/
def updated_instance (cfg : Cfg) (inst : LocalRecord) (record_id : String)
    (mapped : List (String × String)) : LocalRecord :=
  { inst with
    fields := applyFields inst.fields (cfg.serData mapped)
    airtable_record_id := record_id }

/-- Model of `Importer.update_object` (import_airtable.py lines 114-193).

Returns the new state and the `was_updated` flag.  When the serializer is
valid the mapped attributes and `airtable_record_id` are assigned and the
instance saved; a locked page skips the save but still counts as skipped,
appends the record to `records_used` and returns True; a `ValidationError`
from `save()` counts as skipped and returns False without marking the
record used; an invalid serializer returns False having changed nothing.
(The m2m branch uses `.add` per value; this flat model treats all fields as
scalar assignment.) -/
def update_object (cfg : Cfg) (st : St) (inst : LocalRecord) (record_id : String)
    (mapped : List (String × String)) : St × Bool :=
  if cfg.serValid mapped then
    let inst1 := updated_instance cfg inst record_id mapped
    if cfg.is_wagtail_model then
      if !inst.locked then
        if cfg.saveOk inst1 then
          ({ st with
              db := saveRec st.db inst1
              updated := st.updated + 1
              records_used := st.records_used ++ [record_id] }, true)
        else
          ({ st with skipped := st.skipped + 1 }, false)
      else
        ({ st with
            skipped := st.skipped + 1
            records_used := st.records_used ++ [record_id] }, true)
    else
      if cfg.saveOk inst1 then
        ({ st with
            db := saveRec st.db inst1
            updated := st.updated + 1
            records_used := st.records_used ++ [record_id] }, true)
      else
        ({ st with skipped := st.skipped + 1 }, false)
  else
    (st, false)

/-- Model of `Importer.update_object_by_uniq_col_name` (import_airtable.py lines
195-306).  `Except.error ()` is the uncaught `MultipleObjectsReturned`
raised by `model.objects.get` when more than one local record carries the
unique-identifier value.  A falsy unique identifier (absent column, or the
empty string) counts the row as skipped and returns False. -/
def update_object_by_uniq_col_name (cfg : Cfg) (st : St) (record_id : String)
    (mapped : List (String × String)) (unique_identifier : Option String) :
    Except Unit (St × Bool) :=
  match unique_identifier with
  | none => .ok ({ st with skipped := st.skipped + 1 }, false)
  | some v =>
    if v == "" then
      .ok ({ st with skipped := st.skipped + 1 }, false)
    else
      match st.db.filter (fun r => r.fields.lookup cfg.uniqField == some v) with
      | [] => .ok (st, false)
      | [inst] =>
        if cfg.serValid mapped then
          let inst1 := updated_instance cfg inst record_id mapped
          if cfg.is_wagtail_model then
            if !inst.locked then
              if cfg.saveOk inst1 then
                .ok ({ st with
                    db := saveRec st.db inst1
                    updated := st.updated + 1
                    records_used := st.records_used ++ [record_id] }, true)
              else
                .ok ({ st with skipped := st.skipped + 1 }, false)
            else
              .ok ({ st with
                  skipped := st.skipped + 1
                  records_used := st.records_used ++ [record_id] }, true)
          else
            if cfg.saveOk inst1 then
              .ok ({ st with
                  db := saveRec st.db inst1
                  updated := st.updated + 1
                  records_used := st.records_used ++ [record_id] }, true)
            else
              .ok ({ st with skipped := st.skipped + 1 }, false)
        else
          .ok ({ st with skipped := st.skipped + 1 }, false)
      | _ :: _ :: _ => .error ()

/-- Model of `Importer.get_data_for_new_model` (import_airtable.py lines 313-338):
validated data when the serializer is valid, otherwise the raw mapped
fields; `pk`/`id` keys stripped (the remote id is stored on the new row's
`airtable_record_id`). -/
def get_data_for_new_model (cfg : Cfg) (mapped : List (String × String)) :
    List (String × String) :=
  let base := if cfg.serValid mapped then cfg.serData mapped else mapped
  base.filter (fun p => !(p.1 == "pk") && !(p.1 == "id"))

/-- The creation step of `Importer.run` (lines 477-580).  A Wagtail page
row is first appended to `records_used`; a page is only created under a
resolvable configured parent page (a page saved with no tree position makes
Wagtail raise, which the blanket `except` branches swallow, and a missing
parent page hits the `continue`).  A non-page row is instantiated from
`get_data_for_new_model` and saved; the caught creation exceptions
(`ValueError`/`IntegrityError`/`AttributeError`/`Exception`) are modelled
by `cfg.createOk = false`, which leaves the database unchanged. -/
def create_step (cfg : Cfg) (st : St) (record_id : String)
    (mapped : List (String × String)) : St :=
  if cfg.is_wagtail_model then
    let st1 := { st with records_used := st.records_used ++ [record_id] }
    match cfg.parentSetting with
    | none => st1
    | some _ =>
      if cfg.parentExists && cfg.createOk then
        let data := get_data_for_new_model cfg mapped
        { st1 with
            db := st1.db ++ [⟨freshPk st1.db, record_id, data, false⟩]
            created := st1.created + 1 }
      else st1
  else
    if cfg.createOk then
      let data := get_data_for_new_model cfg mapped
      { st with
          db := st.db ++ [⟨freshPk st.db, record_id, data, false⟩]
          created := st.created + 1 }
    else st

/-- One iteration of the record loop of `Importer.run` (lines 408-580):
skip rows already in `records_used`; look up by `airtable_record_id`
(`MultipleObjectsReturned` keeps the first object and blanks the impostors'
ids); run `update_object` and stop if it reports success; otherwise fall
through to the unique-identifier step and, if that also fails, to the
creation step. -/
def process_record (cfg : Cfg) (st : St) (record : ARecord) : Except Unit St :=
  if st.records_used.contains record.id then .ok st
  else
    let mapped := convert_mapped_fields record.fields cfg.mapping
    let idMatches := st.db.filter (fun r => r.airtable_record_id == record.id)
    let objSt : Option LocalRecord × St :=
      match idMatches with
      | [] => (none, st)
      | [x] => (some x, st)
      | x :: _ :: _ =>
        (some x,
          { st with
              db := st.db.map (fun r =>
                if r.airtable_record_id == record.id && !(r.pk == x.pk) then
                  { r with airtable_record_id := "" }
                else r) })
    let uniqThenCreate (st1 : St) : Except Unit St :=
      let unique_identifier := record.fields.lookup cfg.uniqCol
      match update_object_by_uniq_col_name cfg st1 record.id mapped unique_identifier with
      | .error e => .error e
      | .ok (st2, true) => .ok st2
      | .ok (st2, false) => .ok (create_step cfg st2 record.id mapped)
    match objSt with
    | (some obj, st1) =>
      let r := update_object cfg st1 obj record.id mapped
      if r.2 then .ok r.1 else uniqThenCreate r.1
    | (none, st1) => uniqThenCreate st1

/-- Python dict assignment `self.cached_records[name] = all_records`. -/
def cacheSet (c : List (String × List ARecord)) (k : String) (v : List ARecord) :
    List (String × List ARecord) :=
  if c.any (fun p => p.1 == k) then
    c.map (fun p => if p.1 == k then (k, v) else p)
  else c ++ [(k, v)]

/-- Model of `Importer.get_or_set_cached_records` (import_airtable.py lines 77-102).
The Python guard is `if self.cached_records.get(table_name):`, i.e. a
*truthiness* test: a cached empty list does not count as a cache hit. -/
def get_or_set_cached_records (get_all : String → List ARecord) (st : St)
    (table : String) : List ARecord × St :=
  match st.cached_records.lookup table with
  | some (r :: rs) => (r :: rs, st)
  | _ =>
    let all_records := get_all table
    (all_records,
      { st with
          cached_records := cacheSet st.cached_records table all_records
          fetches := st.fetches ++ [table] })

/-- One model's pass of `Importer.run` (lines 349-580): fetch (or reuse) the
table's records, then fold the record loop over them. -/
def run_model (get_all : String → List ARecord) (cfg : Cfg) (st : St) :
    Except Unit St :=
  let fetched := get_or_set_cached_records get_all st cfg.table
  fetched.1.foldlM (fun s r => process_record cfg s r) fetched.2

/-- Model of `Importer.run` (lines 340-582) over the validated models. -/
def run (get_all : String → List ARecord) (cfgs : List Cfg) (st : St) :
    Except Unit St :=
  cfgs.foldlM (fun s c => run_model get_all c s) st

end Importer

/-! ### `AirtableMixin` (mixins.py) -/

namespace AirtableMixin

/-- Python exceptions that `parse_request_error` can raise:
`IndexError` from `error.split("[Error: ")[1]` when the marker is absent,
`ValueError` from `int(...)` or from `ast.literal_eval` on malformed input
(a missing dict key also surfaces as a lookup failure). -/
inductive PyErr
  | indexError
  | valueError
deriving DecidableEq, Repr

/-- The dictionary returned by `parse_request_error`. -/
structure ParsedError where
  status_code : Int
  type : String
  message : String
deriving DecidableEq, Repr

/-- The leading status code: `int(error.split(":", 1)[0].split(" ")[0])`. -/
def leadCode (error : String) : Option Int :=
  pyToInt (firstPiece [' '] (firstPiece [':'] error.data))

/-- The bracketed error body:
`error.split("[Error: ")[1].rstrip("]")`, `none` when `"[Error: "` does not
occur (Python raises `IndexError` there). -/
def errorBody (error : String) : Option String :=
  ((splitList "[Error: ".data error.data).get? 1).map
    (fun cs => String.mk (rstripBracket cs))

/-- Model of `AirtableMixin.parse_request_error` (mixins.py lines 267-305).

`literal_eval` — the Python-literal parser applied to the bracketed error
body — is an external collaborator; it is passed in as a function returning
the body's `type` and `message` entries (or `none` when parsing or the key
lookups fail). -/
def parse_request_error (literal_eval : String → Option (String × String))
    (error : String) : Except PyErr ParsedError :=
  if error == "" || strContains error "503 Server Error" then
    .ok ⟨503, "SERVICE_UNAVAILABLE", "Airtable may be down, or is otherwise unreachable"⟩
  else
    match leadCode error with
    | none => .error .valueError
    | some code =>
      if code == 502 then
        .ok ⟨code, "SERVER_ERROR", "Service may be down, or is otherwise unreachable"⟩
      else
        match errorBody error with
        | none => .error .indexError
        | some body =>
          if body == "NOT_FOUND" then
            .ok ⟨code, "NOT_FOUND", "Record not found"⟩
          else
            match literal_eval body with
            | some (t, m) => .ok ⟨code, t, m⟩
            | none => .error .valueError

/-- The observable outcome of one `AirtableMixin.save()` call:
whether the initial `super().save()` ran, whether the post-create second
`super().save()` ran, and either the transient `_airtable_update_error`
message attached to the instance (`none` when the push succeeded or was
disabled) or an exception that escaped `save()`. -/
structure SaveTrace where
  localSaved : Bool
  secondSave : Bool
  outcome : Except PyErr (Option String)

/-- Model of `AirtableMixin.save` (mixins.py lines 307-346), as a function of the
push flags, of whether `airtable_record_id` is already set, and of the
remote push outcome (`none`: the `update_record()`/`create_record()` call
returned; `some s`: it raised `HTTPError` with message `s`).

The local save (`super().save()`) always runs first.  An `HTTPError` from
the push is caught and handed to `parse_request_error`; if that parse
itself raises, the exception escapes `save()` (the except-blocks only catch
`HTTPError`). -/
def save (literal_eval : String → Option (String × String))
    (push_to_airtable_internal push_to_airtable : Bool) (hasRecordId : Bool)
    (pushError : Option String) : SaveTrace :=
  if push_to_airtable_internal && push_to_airtable then
    if hasRecordId then
      match pushError with
      | none => ⟨true, false, .ok none⟩
      | some s =>
        match parse_request_error literal_eval s with
        | .ok p =>
          ⟨true, false, .ok (some ("Could not update Airtable record. Reason: " ++ p.message))⟩
        | .error e => ⟨true, false, .error e⟩
    else
      match pushError with
      | none => ⟨true, true, .ok none⟩
      | some s =>
        match parse_request_error literal_eval s with
        | .ok p =>
          ⟨true, false, .ok (some ("Could not create Airtable record. Reason: " ++ p.message))⟩
        | .error e => ⟨true, false, .error e⟩
  else ⟨true, false, .ok none⟩

/-! #### The push/match/create state machine -/

/-- The `AIRTABLE_UNIQUE_IDENTIFIER` setting: a plain column name, or a
one-entry `{airtable_column: model_field}` dictionary. -/
inductive UniqSpec
  | str (name : String)
  | dict (column field : String)
deriving DecidableEq, Repr

/-- A syncable entity as `create_record`/`match_record` see it. -/
structure Entity where
  airtable_record_id : String
  uniqSpec : UniqSpec
  fields : List (String × String)
  mapped_export_fields : List (String × String)
deriving DecidableEq, Repr

/-- The Airtable column searched and the local value searched for,
per `match_record`'s two branches over the unique-identifier spec. -/
def uniqColVal (e : Entity) : String × String :=
  match e.uniqSpec with
  | .dict column field => (column, (e.fields.lookup field).getD "")
  | .str name => (name, (e.fields.lookup name).getD "")

/-- The remote table client as a black box: the rows `search` returns for a
column/value pair, whether `get(id)` succeeds (`check_record_exists`), and
the id Airtable assigns on `insert`. -/
structure RemoteClient where
  searchRes : String → String → List ARecord
  existsId : String → Bool
  insertId : String

/-- Model of `AirtableMixin.match_record` (mixins.py lines 217-257): search the
unique-identifier column for the entity's value; return the first returned
record's id, or the empty string when nothing matches (more than one match
only logs a warning). -/
def match_record (c : RemoteClient) (e : Entity) : String :=
  let cv := uniqColVal e
  match c.searchRes cv.1 cv.2 with
  | [] => ""
  | r :: _ => r.id

/-- A remote API call made during a push, for tracing which operations a
`create_record`/`update_record` run performs. -/
inductive RemoteOp
  | search (column value : String)
  | get (record_id : String)
  | update (record_id : String)
  | insert
deriving DecidableEq, Repr

/-- Which of the two mutually recursive push entry points is running:
`create_record`, or `update_record(airtable_record_id=...)`. -/
inductive PushMode
  | create
  | update (record_id : Option String)

/-- The mutual recursion of `AirtableMixin.create_record` (lines 145-167)
and `AirtableMixin.update_record` (lines 182-202), with fuel (the recursion
is finite whenever the client answers consistently; `none` means the fuel
ran out).  Returns the entity with its updated `airtable_record_id` and the
trace of remote calls:

* `create_record`: `match_record` first; a match is updated via
  `update_record`, otherwise `client.insert(mapped_export_fields)` runs and
  the returned id is stored;
* `update_record`: the target id is the argument if truthy, else the
  entity's own; if `check_record_exists` confirms it, `client.update` runs,
  otherwise it falls back to `create_record`. -/
def pushGo : Nat → RemoteClient → Entity → PushMode → Option (Entity × List RemoteOp)
  | 0, _, _, _ => none
  | fuel + 1, c, e, .create =>
    let cv := uniqColVal e
    let matched := match_record c e
    if matched == "" then
      some ({ e with airtable_record_id := c.insertId }, [.search cv.1 cv.2, .insert])
    else
      match pushGo fuel c e (.update (some matched)) with
      | some (e1, ops) => some (e1, .search cv.1 cv.2 :: ops)
      | none => none
  | fuel + 1, c, e, .update ridArg =>
    let rid :=
      match ridArg with
      | some r => if r == "" then e.airtable_record_id else r
      | none => e.airtable_record_id
    if c.existsId rid then
      some ({ e with airtable_record_id := rid }, [.get rid, .update rid])
    else
      match pushGo fuel c e .create with
      | some (e1, ops) => some (e1, .get rid :: ops)
      | none => none

/-- Model of `AirtableMixin.create_record` with enough fuel for the claims below. -/
def create_record (fuel : Nat) (c : RemoteClient) (e : Entity) :
    Option (Entity × List RemoteOp) :=
  pushGo fuel c e .create

end AirtableMixin

/-! ## Claim theorems -/

/-- C7: Import field mapping.  `convert_mapped_fields` returns exactly the
pairs `(local_field, value)` for the remote columns present in the mapping
spec, dropping every unmapped remote column; it is a total function, and on
the spec's example — mapping `{A: a, B: b}`, remote fields
`{A: "x", B: "y", C: "z"}` — it yields exactly `{a: "x", b: "y"}`. -/
theorem convert_mapped_fields_spec :
    (∀ (fields mapping : List (String × String)) (f v : String),
      ((f, v) ∈ convert_mapped_fields fields mapping ↔
        ∃ k, (k, v) ∈ fields ∧ mapping.lookup k = some f))
    ∧ convert_mapped_fields [("A", "x"), ("B", "y"), ("C", "z")] [("A", "a"), ("B", "b")]
        = [("a", "x"), ("b", "y")] := by
  constructor
  · intro fields mapping f v
    unfold convert_mapped_fields
    rw [List.mem_filterMap]
    constructor
    · rintro ⟨⟨k, v'⟩, hmem, hf⟩
      cases hl : List.lookup k mapping with
      | none =>
        rw [hl] at hf
        exact absurd hf (by simp)
      | some g =>
        rw [hl] at hf
        simp only [Option.some.injEq, Prod.mk.injEq] at hf
        refine ⟨k, ?_, ?_⟩
        · rw [← hf.2]; exact hmem
        · rw [hl, hf.1]
    · rintro ⟨k, hk, hlk⟩
      refine ⟨(k, v), hk, ?_⟩
      rw [show List.lookup (k, v).1 mapping = some f from hlk]
  · rfl

/-- C6: Remote error parsing.  `parse_request_error` maps (1) the empty
string and (2) any string containing `"503 Server Error"` to
`{503, SERVICE_UNAVAILABLE}`; (3) a string whose leading status code is 502
to `{502, SERVER_ERROR}`; (4) a string whose bracketed error body is the
literal `NOT_FOUND` to `{code, NOT_FOUND, "Record not found"}`; and (5) any
other string to the `type`/`message` fields extracted (by `literal_eval`)
from the embedded structured error body. -/
theorem parse_request_error_spec (lE : String → Option (String × String)) :
    (AirtableMixin.parse_request_error lE ""
        = .ok ⟨503, "SERVICE_UNAVAILABLE", "Airtable may be down, or is otherwise unreachable"⟩)
    ∧ (∀ s, strContains s "503 Server Error" = true →
        AirtableMixin.parse_request_error lE s
          = .ok ⟨503, "SERVICE_UNAVAILABLE", "Airtable may be down, or is otherwise unreachable"⟩)
    ∧ (∀ s, strContains s "503 Server Error" = false →
        AirtableMixin.leadCode s = some 502 →
        AirtableMixin.parse_request_error lE s
          = .ok ⟨502, "SERVER_ERROR", "Service may be down, or is otherwise unreachable"⟩)
    ∧ (∀ s c, strContains s "503 Server Error" = false → s ≠ "" →
        AirtableMixin.leadCode s = some c → c ≠ 502 →
        AirtableMixin.errorBody s = some "NOT_FOUND" →
        AirtableMixin.parse_request_error lE s = .ok ⟨c, "NOT_FOUND", "Record not found"⟩)
    ∧ (∀ s c body t m, strContains s "503 Server Error" = false → s ≠ "" →
        AirtableMixin.leadCode s = some c → c ≠ 502 →
        AirtableMixin.errorBody s = some body → body ≠ "NOT_FOUND" →
        lE body = some (t, m) →
        AirtableMixin.parse_request_error lE s = .ok ⟨c, t, m⟩) := by
  refine ⟨rfl, ?_, ?_, ?_, ?_⟩
  · intro s h
    unfold AirtableMixin.parse_request_error
    rw [h]
    simp
  · intro s h h2
    have hne : s ≠ "" := by
      intro he
      subst he
      rw [show AirtableMixin.leadCode "" = none from rfl] at h2
      exact absurd h2 (by simp)
    unfold AirtableMixin.parse_request_error
    rw [h, h2]
    simp [hne]
  · intro s c h h0 h2 h502 hbody
    unfold AirtableMixin.parse_request_error
    rw [h, h2, hbody]
    simp [h0, h502]
  · intro s c body t m h h0 h2 h502 hbody hnf hLE
    unfold AirtableMixin.parse_request_error
    rw [h, h2, hbody]
    simp [h0, h502, hnf, hLE]

/-- Witness for C6: the theorem applied to concrete error strings for each
of its four conditional cases. -/
theorem parse_request_error_spec_witness :
    (AirtableMixin.parse_request_error (fun _ => none)
        "503 Server Error: Service Unavailable for url: https://api.airtable.com/v0/appX/Base"
      = .ok ⟨503, "SERVICE_UNAVAILABLE", "Airtable may be down, or is otherwise unreachable"⟩)
    ∧ (AirtableMixin.parse_request_error (fun _ => none)
        "502 Server Error: Bad Gateway for url: https://api.airtable.com/v0/appX/Base"
      = .ok ⟨502, "SERVER_ERROR", "Service may be down, or is otherwise unreachable"⟩)
    ∧ (AirtableMixin.parse_request_error (fun _ => none)
        "404 Client Error: Not Found for url: https://api.airtable.com/v0/appX/Base [Error: NOT_FOUND]"
      = .ok ⟨404, "NOT_FOUND", "Record not found"⟩)
    ∧ (AirtableMixin.parse_request_error
        (fun s =>
          if s == "\x7b'type': 'AUTHENTICATION_REQUIRED', 'message': 'Authentication required'\x7d" then
            some ("AUTHENTICATION_REQUIRED", "Authentication required")
          else none)
        "401 Client Error: Unauthorized for url: https://api.airtable.com/v0/appX/Base [Error: \x7b'type': 'AUTHENTICATION_REQUIRED', 'message': 'Authentication required'\x7d]"
      = .ok ⟨401, "AUTHENTICATION_REQUIRED", "Authentication required"⟩) :=
  ⟨(parse_request_error_spec (fun _ => none)).2.1 _ rfl,
   (parse_request_error_spec (fun _ => none)).2.2.1 _ rfl rfl,
   (parse_request_error_spec (fun _ => none)).2.2.2.1 _ 404 rfl (by decide) rfl (by decide) rfl,
   (parse_request_error_spec _).2.2.2.2 _ 401
     "\x7b'type': 'AUTHENTICATION_REQUIRED', 'message': 'Authentication required'\x7d"
     "AUTHENTICATION_REQUIRED" "Authentication required"
     rfl (by decide) rfl (by decide) rfl (by decide) rfl⟩

/-- C10: `parse_request_error` is partial.  For every non-empty error
string that does not contain `"503 Server Error"`, whose leading status
code parses to something other than 502, and that contains no
`"[Error: "` segment, the function raises `IndexError`
(from `error.split("[Error: ")[1]`), and `save()` — whose except-blocks
only catch `HTTPError` — propagates it instead of returning. -/
theorem parse_request_error_raises_without_error_body (lE : String → Option (String × String))
    (s : String) (c : Int)
    (h0 : s ≠ "") (h1 : strContains s "503 Server Error" = false)
    (h2 : AirtableMixin.leadCode s = some c) (h3 : c ≠ 502)
    (h4 : strContains s "[Error: " = false) :
    AirtableMixin.parse_request_error lE s = .error .indexError ∧
    ∀ hasRecordId : Bool,
      (AirtableMixin.save lE true true hasRecordId (some s)).outcome
        = .error .indexError := by
  have hsplit : splitList "[Error: ".data s.data = [s.data] :=
    splitList_of_not_contains _ _ h4
  have hbody : AirtableMixin.errorBody s = none := by
    unfold AirtableMixin.errorBody
    rw [hsplit]
    rfl
  have hparse : AirtableMixin.parse_request_error lE s = .error .indexError := by
    unfold AirtableMixin.parse_request_error
    rw [h1, h2, hbody]
    simp [h0, h3]
  refine ⟨hparse, ?_⟩
  intro hasRecordId
  cases hasRecordId <;> simp [AirtableMixin.save, hparse]

/-- Witness for C10: a plain `"500 Server Error: ... for url: ..."` message
with no structured body makes the parse raise and `save()` propagate. -/
theorem parse_request_error_raises_without_error_body_witness :
    AirtableMixin.parse_request_error (fun _ => none)
      "500 Server Error: Internal Server Error for url: https://api.airtable.com/v0/appX/Base"
      = .error .indexError ∧
    (AirtableMixin.save (fun _ => none) true true true
      (some "500 Server Error: Internal Server Error for url: https://api.airtable.com/v0/appX/Base")).outcome
      = .error .indexError :=
  ⟨(parse_request_error_raises_without_error_body (fun _ => none)
      "500 Server Error: Internal Server Error for url: https://api.airtable.com/v0/appX/Base"
      500 (by decide) rfl rfl (by decide) rfl).1,
   (parse_request_error_raises_without_error_body (fun _ => none)
      "500 Server Error: Internal Server Error for url: https://api.airtable.com/v0/appX/Base"
      500 (by decide) rfl rfl (by decide) rfl).2 true⟩

/-- A non-locked page instance whose fields are already a fixpoint of the
assignment loop makes `update_object` skip the save. -/
theorem update_object_page_skips_of_fixpoint (i : AirtableModelImporter.Instance)
    (rid : String) (d : List (String × String)) (hl : i.locked = false)
    (hfix : applyFields i.fields d = i.fields) :
    (AirtableModelImporter.update_object true i rid d).1 = false := by
  obtain ⟨pk, aid, fs, lk, pu⟩ := i
  simp only [AirtableModelImporter.Instance.locked] at hl
  simp only [AirtableModelImporter.Instance.fields] at hfix
  subst hl
  unfold AirtableModelImporter.update_object AirtableModelImporter.toJson
  simp [hfix]

/-- After a run of `update_object` on a non-locked page, the instance's data
fields are `applyFields i.fields d` and it is still not locked. -/
theorem update_object_snd_state (i : AirtableModelImporter.Instance)
    (rid : String) (d : List (String × String)) (hl : i.locked = false) :
    ((AirtableModelImporter.update_object true i rid d).2).fields = applyFields i.fields d
    ∧ ((AirtableModelImporter.update_object true i rid d).2).locked = false := by
  obtain ⟨pk, aid, fs, lk, pu⟩ := i
  simp only [AirtableModelImporter.Instance.locked] at hl
  subst hl
  unfold AirtableModelImporter.update_object
  simp only [AirtableModelImporter.Instance.fields, Bool.and_false, Bool.false_eq_true,
    if_false]
  split <;> exact ⟨rfl, rfl⟩

/-- C1 (counterexample): the claimed unconditional second-run no-op is
false.  For a *non-page* model the update path performs no before/after
comparison: re-running `update_object` on the very instance produced by the
first run, with the same unchanged remote data, still reports a save
(`was_updated = true`), i.e. the second import run writes the record again. -/
theorem second_run_saves_again_for_non_page :
    (AirtableModelImporter.update_object false
      (AirtableModelImporter.update_object false ⟨1, "rec1", [("title", "A")], false, true⟩
        "rec1" [("title", "A")]).2
      "rec1" [("title", "A")]).1 = true := rfl

/-- C1 (amended): the second-run short-circuit exists only for page models.
For a page model that is not locked, running `update_object` again on the
instance the first run produced, with the same data (distinct field keys,
as Python dict keys are), compares the serialized state before and after
the assignment loop and skips the save. -/
theorem second_run_skips_save_for_pages (i : AirtableModelImporter.Instance)
    (rid : String) (d : List (String × String))
    (hd : (d.map Prod.fst).Nodup) (hl : i.locked = false) :
    (AirtableModelImporter.update_object true
      (AirtableModelImporter.update_object true i rid d).2 rid d).1 = false := by
  obtain ⟨hf, hlk⟩ := update_object_snd_state i rid d hl
  apply update_object_page_skips_of_fixpoint _ rid d hlk
  rw [hf]
  exact applyFields_idem d i.fields hd

/-- Witness for C1's amended theorem at a concrete page instance. -/
theorem second_run_skips_save_for_pages_witness :
    (AirtableModelImporter.update_object true
      (AirtableModelImporter.update_object true
        ⟨1, "", [("title", "A"), ("slug", "a")], false, true⟩ "rec1" [("title", "B")]).2
      "rec1" [("title", "B")]).1 = false :=
  second_run_skips_save_for_pages ⟨1, "", [("title", "A"), ("slug", "a")], false, true⟩
    "rec1" [("title", "B")] (by decide) rfl

/-- C2 (counterexample): in the management-command importer the
unique-identifier lookup is *not* attempted only when no record matches by
external record id.  Remote row `rec1` matches record A (pk 1, by
`airtable_record_id`); A's save raises `ValidationError`
(`saveOk` false for pk 1), so `update_object` returns False and `run` falls
through to `update_object_by_uniq_col_name`, which finds record B (pk 2) by
the unique slug value and updates it: B ends with
`airtable_record_id = "rec1"`, no longer untouched. -/
theorem command_importer_updates_uniq_match_after_id_match_failure :
    Except.map (fun s => s.db)
      (Importer.process_record
        { table := "T", is_wagtail_model := false, uniqCol := "Slug", uniqField := "slug"
          mapping := [("Slug", "slug")]
          serValid := fun _ => true, serData := fun m => m
          saveOk := fun r => !(r.pk == 1), createOk := true
          parentSetting := none, parentExists := false }
        ⟨[], [], 0, 0, 0,
          [⟨1, "rec1", [("slug", "a-old")], false⟩, ⟨2, "", [("slug", "x")], false⟩], []⟩
        ⟨"rec1", [("Slug", "x")]⟩)
    = .ok [⟨1, "rec1", [("slug", "a-old")], false⟩, ⟨2, "rec1", [("slug", "x")], false⟩] := rfl

/-- C2 (amended): in `AirtableModelImporter` the precedence holds
unconditionally: when some local record A matches the remote row by
`airtable_record_id`, `get_existing_instance` returns A without consulting
the unique identifier, and `process_record` leaves every other local record
(any B with a different pk) exactly as it was, whatever the update outcome. -/
theorem id_match_leaves_other_records_unchanged
    (cfg : AirtableModelImporter.Cfg) (db : List AirtableModelImporter.Instance)
    (fpk : Nat) (record : ARecord) (A : AirtableModelImporter.Instance)
    (hA : db.find? (fun i => i.airtable_record_id == record.id) = some A) :
    ∀ B ∈ db, B.pk ≠ A.pk →
      B ∈ (AirtableModelImporter.process_record cfg db fpk record).2 := by
  intro B hB hpk
  have hobj : AirtableModelImporter.get_existing_instance db cfg.uniqField record.id
      (record.fields.lookup cfg.uniqCol) = some A := by
    unfold AirtableModelImporter.get_existing_instance
    rw [hA]
  cases hval : cfg.serValid (convert_mapped_fields record.fields cfg.mapping) with
  | false => simp [AirtableModelImporter.process_record, hobj, hval, hB]
  | true =>
    cases ht : cfg.updateThrows with
    | true => simp [AirtableModelImporter.process_record, hobj, hval, ht, hB]
    | false =>
      cases hr : (AirtableModelImporter.update_object cfg.model_is_page A record.id
          (cfg.serData (convert_mapped_fields record.fields cfg.mapping))).1 with
      | false => simp [AirtableModelImporter.process_record, hobj, hval, ht, hr, hB]
      | true =>
        simp only [AirtableModelImporter.process_record, hobj, hval, ht, hr,
          Bool.not_true, Bool.false_eq_true, if_false, if_true]
        refine List.mem_map.mpr ⟨B, hB, ?_⟩
        simp [hpk]

/-- Witness for C2's amended theorem: concrete database `[A, B]` where the
row matches A by id and B by unique identifier; B stays in the result. -/
theorem id_match_leaves_other_records_unchanged_witness :
    (⟨2, "", [("slug", "x")], false, true⟩ : AirtableModelImporter.Instance) ∈
      (AirtableModelImporter.process_record
        { model_is_page := false, uniqCol := "Slug", uniqField := "slug"
          mapping := [("Slug", "slug")]
          serValid := fun _ => true, serData := fun m => m
          updateThrows := false, createThrows := false }
        [⟨1, "rec1", [("slug", "a-old")], false, true⟩, ⟨2, "", [("slug", "x")], false, true⟩]
        3 ⟨"rec1", [("Slug", "x")]⟩).2 :=
  id_match_leaves_other_records_unchanged
    { model_is_page := false, uniqCol := "Slug", uniqField := "slug"
      mapping := [("Slug", "slug")]
      serValid := fun _ => true, serData := fun m => m
      updateThrows := false, createThrows := false }
    [⟨1, "rec1", [("slug", "a-old")], false, true⟩, ⟨2, "", [("slug", "x")], false, true⟩]
    3 ⟨"rec1", [("Slug", "x")]⟩
    ⟨1, "rec1", [("slug", "a-old")], false, true⟩ rfl
    ⟨2, "", [("slug", "x")], false, true⟩ (by decide) (by decide)

/-- C3 (counterexample): a remote row for which a local record *is* found
by external record id is not always marked used.  With an invalid
serializer the update path returns False without touching `records_used`,
the unique-identifier step also fails, and the create step (non-page model)
never appends to `records_used` either: the run ends with `records_used`
still empty, so the row would be reconsidered by an equivalent-type pass
sharing the cached fetch. -/
theorem id_matched_row_not_marked_used_on_invalid_data :
    Except.map (fun s => s.records_used)
      (Importer.process_record
        { table := "T", is_wagtail_model := false, uniqCol := "Slug", uniqField := "slug"
          mapping := [("Slug", "slug")]
          serValid := fun _ => false, serData := fun m => m
          saveOk := fun _ => true, createOk := true
          parentSetting := none, parentExists := false }
        ⟨[], [], 0, 0, 0, [⟨1, "rec1", [("slug", "a")], false⟩], []⟩
        ⟨"rec1", [("Slug", "a")]⟩)
    = .ok [] := rfl

/-- C3 (amended): the update path marks a row used exactly when it reports
success: `Importer.update_object` appends the record id to `records_used`
if and only if it returns `was_updated = true` (serializer valid, and the
save succeeded or the page was locked); on a validation failure or a save
error the row is left unmarked and falls through to the later steps. -/
theorem update_object_marks_used_iff_updated (cfg : Importer.Cfg) (st : Importer.St)
    (inst : Importer.LocalRecord) (record_id : String) (mapped : List (String × String)) :
    (Importer.update_object cfg st inst record_id mapped).1.records_used
      = st.records_used
        ++ (if (Importer.update_object cfg st inst record_id mapped).2 then [record_id]
            else []) := by
  unfold Importer.update_object
  cases hv : cfg.serValid mapped with
  | false => simp
  | true =>
    cases hs : cfg.saveOk (Importer.updated_instance cfg inst record_id mapped) with
    | false =>
      cases hw : cfg.is_wagtail_model <;> cases hlk : inst.locked <;> simp [hs]
    | true =>
      cases hw : cfg.is_wagtail_model <;> cases hlk : inst.locked <;> simp [hs]

/-- C8 (the code violates the at-most-one-fetch invariant on the edge the
cache comment promises to avoid): `get_or_set_cached_records` guards with
`if self.cached_records.get(table_name):`, a truthiness test, so a cached
*empty* record list never counts as a hit.  Two entity types sharing remote
table `"T"` whose `get_all()` returns `[]` trigger two full-table fetches
in one run; with a non-empty table the same run fetches exactly once. -/
theorem shared_empty_table_fetched_twice :
    (Except.map (fun s => s.fetches)
      (Importer.run (fun _ => [])
        [{ table := "T", is_wagtail_model := false, uniqCol := "Slug", uniqField := "slug"
           mapping := [("Slug", "slug")], serValid := fun _ => true, serData := fun m => m
           saveOk := fun _ => true, createOk := true, parentSetting := none, parentExists := false },
         { table := "T", is_wagtail_model := false, uniqCol := "Slug", uniqField := "slug"
           mapping := [("Slug", "slug")], serValid := fun _ => true, serData := fun m => m
           saveOk := fun _ => true, createOk := true, parentSetting := none, parentExists := false }]
        ⟨[], [], 0, 0, 0, [], []⟩)
    = .ok ["T", "T"])
    ∧ (Except.map (fun s => s.fetches)
      (Importer.run (fun _ => [⟨"rec1", [("Slug", "a")]⟩])
        [{ table := "T", is_wagtail_model := false, uniqCol := "Slug", uniqField := "slug"
           mapping := [("Slug", "slug")], serValid := fun _ => true, serData := fun m => m
           saveOk := fun _ => true, createOk := true, parentSetting := none, parentExists := false },
         { table := "T", is_wagtail_model := false, uniqCol := "Slug", uniqField := "slug"
           mapping := [("Slug", "slug")], serValid := fun _ => true, serData := fun m => m
           saveOk := fun _ => true, createOk := true, parentSetting := none, parentExists := false }]
        ⟨[], [], 0, 0, 0, [], []⟩)
    = .ok ["T"]) :=
  ⟨rfl, rfl⟩

/-- C4: no duplicate rows on push.  When the unique-identifier search
returns at least one row, `create_record` updates the *first* returned
remote row (after probing its existence) and stores that row's id as the
entity's `airtable_record_id`, performing no insert; only when the search
returns no rows does it insert a new remote row (storing the id Airtable
assigns).  `existsId r.id = true` says the probed row is still present
remotely — the consistency assumption under which the
`create_record`/`update_record` recursion terminates in one step. -/
theorem create_record_no_duplicate (n : Nat) (c : AirtableMixin.RemoteClient)
    (e : AirtableMixin.Entity) :
    (∀ r rs,
      c.searchRes (AirtableMixin.uniqColVal e).1 (AirtableMixin.uniqColVal e).2 = r :: rs →
      r.id ≠ "" → c.existsId r.id = true →
      AirtableMixin.create_record (n + 2) c e =
        some ({ e with airtable_record_id := r.id },
          [.search (AirtableMixin.uniqColVal e).1 (AirtableMixin.uniqColVal e).2,
            .get r.id, .update r.id]))
    ∧ (c.searchRes (AirtableMixin.uniqColVal e).1 (AirtableMixin.uniqColVal e).2 = [] →
      AirtableMixin.create_record (n + 1) c e =
        some ({ e with airtable_record_id := c.insertId },
          [.search (AirtableMixin.uniqColVal e).1 (AirtableMixin.uniqColVal e).2,
            .insert])) := by
  constructor
  · intro r rs hs hr he
    have hm : AirtableMixin.match_record c e = r.id := by
      simp only [AirtableMixin.match_record]
      rw [hs]
    have hrid : (r.id == "") = false := by simp [hr]
    simp [AirtableMixin.create_record, AirtableMixin.pushGo, hm, hrid, he]
  · intro hs
    have hm : AirtableMixin.match_record c e = "" := by
      simp only [AirtableMixin.match_record]
      rw [hs]
    simp [AirtableMixin.create_record, AirtableMixin.pushGo, hm]

/-- Witness for C4: a concrete client where the search matches `recX`
(updated in place, no insert) and one where it matches nothing
(inserted, fresh id stored). -/
theorem create_record_no_duplicate_witness :
    (AirtableMixin.create_record 2
      ⟨(fun c v => if c == "slug" && v == "a" then [⟨"recX", []⟩] else []),
        (fun i => i == "recX"), "recNEW"⟩
      ⟨"", .str "slug", [("slug", "a")], [("Slug", "a")]⟩
    = some (⟨"recX", .str "slug", [("slug", "a")], [("Slug", "a")]⟩,
        [.search "slug" "a", .get "recX", .update "recX"]))
    ∧ (AirtableMixin.create_record 1
      ⟨(fun _ _ => []), (fun _ => false), "recNEW"⟩
      ⟨"", .str "slug", [("slug", "a")], [("Slug", "a")]⟩
    = some (⟨"recNEW", .str "slug", [("slug", "a")], [("Slug", "a")]⟩,
        [.search "slug" "a", .insert])) :=
  ⟨(create_record_no_duplicate 0
      ⟨(fun c v => if c == "slug" && v == "a" then [⟨"recX", []⟩] else []),
        (fun i => i == "recX"), "recNEW"⟩
      ⟨"", .str "slug", [("slug", "a")], [("Slug", "a")]⟩).1
      ⟨"recX", []⟩ [] rfl (by decide) rfl,
   (create_record_no_duplicate 0
      ⟨(fun _ _ => []), (fun _ => false), "recNEW"⟩
      ⟨"", .str "slug", [("slug", "a")], [("Slug", "a")]⟩).2 rfl⟩

/-- C5 (counterexample): it is not true that *every* HTTP error raised
while pushing is caught, parsed, attached and followed by a normal return.
An `HTTPError` whose message has no bracketed error body (plain
`"500 Server Error: ... for url: ..."`) is caught by `save()`'s
`except HTTPError`, but `parse_request_error` then raises `IndexError`
inside the handler, so no message is attached and `save()` raises instead
of returning the local save's result. -/
theorem save_raises_instead_of_attaching_on_unparseable_error :
    (AirtableMixin.save (fun _ => none) true true true
      (some "500 Server Error: Internal Server Error for url: https://api.airtable.com/v0/appY/T")).outcome
    = .error .indexError := rfl

/-- C5 (amended): the local persist always runs first and completes
whatever the remote outcome; and whenever `parse_request_error` succeeds on
the caught `HTTPError`'s message, the parsed message is attached to the
instance and `save()` returns normally.  (When the parse itself raises, the
exception escapes `save()` — see the partiality claim — though the local
write has already been committed.) -/
theorem save_local_write_first_and_parseable_errors_attached
    (lE : String → Option (String × String)) (pI pE hasRecordId : Bool)
    (pushError : Option String) :
    (AirtableMixin.save lE pI pE hasRecordId pushError).localSaved = true ∧
    (∀ s p, pushError = some s →
      AirtableMixin.parse_request_error lE s = .ok p →
      (AirtableMixin.save lE true true hasRecordId pushError).outcome =
        .ok (some ((if hasRecordId then "Could not update Airtable record. Reason: "
          else "Could not create Airtable record. Reason: ") ++ p.message))) := by
  constructor
  · rcases pushError with _ | s
    · cases pI <;> cases pE <;> cases hasRecordId <;> rfl
    · cases pI <;> cases pE <;> cases hasRecordId <;>
        first
        | rfl
        | (cases hp : AirtableMixin.parse_request_error lE s <;>
            simp [AirtableMixin.save, hp])
  · intro s p hps hp
    subst hps
    cases hasRecordId <;> simp [AirtableMixin.save, hp]

/-- Witness for C5's amended theorem: a parseable 404 error is attached as
a message and the local save is recorded. -/
theorem save_local_write_first_and_parseable_errors_attached_witness :
    (AirtableMixin.save (fun _ => none) true true true
      (some "404 Client Error: Not Found for url: https://x [Error: NOT_FOUND]")).localSaved
      = true ∧
    (AirtableMixin.save (fun _ => none) true true true
      (some "404 Client Error: Not Found for url: https://x [Error: NOT_FOUND]")).outcome
    = .ok (some "Could not update Airtable record. Reason: Record not found") :=
  ⟨(save_local_write_first_and_parseable_errors_attached (fun _ => none) true true true
      (some "404 Client Error: Not Found for url: https://x [Error: NOT_FOUND]")).1,
   (save_local_write_first_and_parseable_errors_attached (fun _ => none) true true true
      (some "404 Client Error: Not Found for url: https://x [Error: NOT_FOUND]")).2
      "404 Client Error: Not Found for url: https://x [Error: NOT_FOUND]"
      ⟨404, "NOT_FOUND", "Record not found"⟩ rfl rfl⟩

/-- C9: in `process_record` the meaning of the `new` flag on the
serializer-invalid path is the inverse of its meaning elsewhere: there it
is `obj is not None` (an existing record *was* found), while on the valid
paths (update, create, and their exception arms) it is true exactly when
no existing record was found. -/
theorem process_record_new_flag_inverted_on_validation_error
    (cfg : AirtableModelImporter.Cfg) (db : List AirtableModelImporter.Instance)
    (fpk : Nat) (record : ARecord) :
    ((AirtableModelImporter.process_record cfg db fpk record).1).new
      = (if cfg.serValid (convert_mapped_fields record.fields cfg.mapping) then
          (AirtableModelImporter.get_existing_instance db cfg.uniqField record.id
            (record.fields.lookup cfg.uniqCol)).isNone
        else
          (AirtableModelImporter.get_existing_instance db cfg.uniqField record.id
            (record.fields.lookup cfg.uniqCol)).isSome) := by
  cases hval : cfg.serValid (convert_mapped_fields record.fields cfg.mapping) with
  | false => simp [AirtableModelImporter.process_record, hval]
  | true =>
    cases hobj : AirtableModelImporter.get_existing_instance db cfg.uniqField record.id
        (record.fields.lookup cfg.uniqCol) with
    | none =>
      cases ht : cfg.createThrows <;>
        simp [AirtableModelImporter.process_record, hval, hobj, ht]
    | some o =>
      cases ht : cfg.updateThrows <;>
        simp [AirtableModelImporter.process_record, hval, hobj, ht]

end WagtailAirtable
